import Mathlib

/-!
Shallow embedding of the at-enka SAM-BA bootloader driver
(`src/atenka/port.py` and `src/atenka/samba.py`).

Pure data and arithmetic are translated directly; transport side effects
(serial writes, flushes, reads) are reified as an explicit event list, and
the bytes a read obtains are passed in as an explicit `delivered` argument
(the environment's choice of what arrived before the timeout).  Python
`bytearray` values are `List Nat` with elements below 256.
-/

namespace Atenka

/-- `MAX_PAYLOAD = 4000` from `samba.py`: the per-chunk bulk-transfer bound. -/
def MAX_PAYLOAD : Nat := 4000

/-- `TERM = '#\x0a'` from `samba.py`: the command terminator. -/
def TERM : String := "#\n"

/-- Opcode `Samba.VERSION = 'V'`. -/
def VERSION : String := "V"

/-- Opcode `Samba.WRITE = 'S'` (bulk send file). -/
def WRITE : String := "S"

/-- Opcode `Samba.READ = 'R'` (bulk receive file). -/
def READ : String := "R"

/-- Python `"%0<width>X" % n`: fixed minimum `width`, upper-case hex, zero
padded; wider values keep all their digits. -/
def pyHexUpper (width n : Nat) : String :=
  let ds := (Nat.toDigits 16 n).map Char.toUpper
  ⟨List.replicate (width - ds.length) '0' ++ ds⟩

/-- `Port.read` from `port.py`.  `delivered` is what the underlying
`serial.Serial.read(length)` call returns before the timeout expires (at
most `length` bytes).  The source raises `TimeoutError` only when
`len(data) == 0`; any non-empty result is returned as a bytearray, and a
zero-length request short-circuits to an empty result. -/
def portRead (delivered : List Nat) (length : Nat) : Except String (List Nat) :=
  if length = 0 then Except.ok []
  else if delivered.length = 0 then Except.error "TimeoutError"
  else Except.ok delivered

/-- One transport-level effect of the driver. -/
inductive Event
  | writeStr (s : String)
  | writeData (d : List Nat)
  | readReq (n : Nat)
  | flush
deriving DecidableEq

/-- `Samba.writeCmd`: a single transport write of the command text plus
terminator. -/
def writeCmd (cmd : String) : List Event :=
  [Event.writeStr (cmd ++ TERM)]

/-- `Samba.version`: the body is exactly `self.writeCmd(Samba.VERSION)`.
There is no `return` statement and no port read, so the Python call
evaluates to `None`; the second component records that returned value. -/
def version : List Event × Option String :=
  (writeCmd VERSION, none)

/-- Helper: recognise transport read requests in an event list. -/
def isReadReq : Event → Bool
  | Event.readReq _ => true
  | _ => false

/-- The struct format string picked in `Samba._readUnit`:
`"<L" if dlen == 4 else "H" if dlen == 2 else "B" if dlen == 1 else None`. -/
inductive StructFmt
  | littleL
  | nativeH
  | byteB
deriving DecidableEq

/-- Format selection from `_readUnit`; `none` models the `None` branch fed
to `struct.unpack`. -/
def structFmtOf (dlen : Nat) : Option StructFmt :=
  if dlen = 4 then some StructFmt.littleL
  else if dlen = 2 then some StructFmt.nativeH
  else if dlen = 1 then some StructFmt.byteB
  else none

/-- Little-endian value of a byte list (first byte least significant). -/
def leVal : List Nat → Nat
  | [] => 0
  | b :: rest => b + 256 * leVal rest

/-- Semantics of Python `struct.unpack` for the three formats `_readUnit`
uses: `"<L"` is explicitly little-endian; `"H"` (no `<` prefix) is NATIVE
byte order, so its value depends on the host flag; `"B"` is one byte.
`none` models `struct.error` when the data length does not match. -/
def structUnpack (fmt : StructFmt) (hostLittle : Bool) (data : List Nat) : Option Nat :=
  match fmt with
  | StructFmt.littleL => if data.length = 4 then some (leVal data) else none
  | StructFmt.nativeH =>
      if data.length = 2 then
        some (if hostLittle then leVal data else leVal data.reverse)
      else none
  | StructFmt.byteB =>
      match data with
      | [b] => some b
      | _ => none

/-- `Samba._readUnit` command frame: `"%s%08X,%u%s" % (cmd, addr, dlen, TERM)`. -/
def readUnitFrame (cmd : String) (addr dlen : Nat) : String :=
  cmd ++ pyHexUpper 8 addr ++ "," ++ toString dlen ++ TERM

/-- Value computation of `Samba._readUnit`: the port read of `dlen` bytes
followed by `struct.unpack` on whatever arrived.  `Except.error` carries the
Python exception class that would propagate. -/
def readUnitResult (hostLittle : Bool) (delivered : List Nat) (dlen : Nat) :
    Except String Nat :=
  match portRead delivered dlen with
  | Except.error e => Except.error e
  | Except.ok data =>
    match structFmtOf dlen with
    | none => Except.error "TypeError"
    | some fmt =>
      match structUnpack fmt hostLittle data with
      | none => Except.error "struct.error"
      | some v => Except.ok v

/-- The `MASKS` dict of `Samba._writeUnit`, mapping unit size to the value
mask and the hex field width of the format string (`"%02X"`, `"%04X"`,
`"%08X"`).  A missing key is a Python `KeyError`, modelled as `none`. -/
def MASKS (dlen : Nat) : Option (Nat × Nat) :=
  if dlen = 1 then some (0x000000ff, 2)
  else if dlen = 2 then some (0x0000ffff, 4)
  else if dlen = 4 then some (0xffffffff, 8)
  else none

/-- `Samba._writeUnit` frame: `"%s%08X,%s%s" % (cmd, addr, data, TERM)` where
`data` is the masked value rendered at the width from `MASKS`. -/
def writeUnitFrame (cmd : String) (addr value dlen : Nat) : Option String :=
  match MASKS dlen with
  | none => none
  | some (mask, width) =>
      some (cmd ++ pyHexUpper 8 addr ++ "," ++ pyHexUpper width (value &&& mask) ++ TERM)

/-- Python slice `data[i:j]` for `i ≤ j` (clamped at the list end). -/
def pySlice (data : List Nat) (i j : Nat) : List Nat :=
  (data.drop i).take (j - i)

/-- `Samba._write`: command-frame write, flush, raw payload write, flush —
four separate transport calls, in this order. -/
def writeChunkEvents (addr length : Nat) (d : List Nat) : List Event :=
  [Event.writeStr (WRITE ++ pyHexUpper 8 addr ++ "," ++ pyHexUpper 8 length ++ TERM),
   Event.flush, Event.writeData d, Event.flush]

/-- The `for l in range(loops)` loop of `Samba.sendFile`, carrying
`addrOffset` and `dataOffsetFrom` (with `dataOffsetTo = dataOffsetFrom +
MAX_PAYLOAD` throughout).  Each iteration issues one `_write` of a full
`MAX_PAYLOAD` chunk. -/
def sendFileLoop (data : List Nat) : Nat → Nat → Nat → List (Nat × Nat × List Nat)
  | 0, _, _ => []
  | l + 1, addrOffset, dataOffsetFrom =>
      (addrOffset, MAX_PAYLOAD, pySlice data dataOffsetFrom (dataOffsetFrom + MAX_PAYLOAD)) ::
        sendFileLoop data l (addrOffset + MAX_PAYLOAD) (dataOffsetFrom + MAX_PAYLOAD)

/-- `Samba.sendFile`: the sequence of `_write` calls it performs, each as
(address, advertised length, payload slice).  `loops = length / MAX_PAYLOAD`
full chunks, then one `bytesRemaining` chunk when that is non-zero. -/
def sendFileWrites (addr : Nat) (data : List Nat) : List (Nat × Nat × List Nat) :=
  let length := data.length
  let loops := length / MAX_PAYLOAD
  let bytesRemaining := length % MAX_PAYLOAD
  sendFileLoop data loops addr 0 ++
    (if bytesRemaining ≠ 0 then
       [(addr + loops * MAX_PAYLOAD, bytesRemaining,
         pySlice data (loops * MAX_PAYLOAD) (loops * MAX_PAYLOAD + bytesRemaining))]
     else [])

/-- Full transport-event trace of `Samba.sendFile`: every chunk goes through
`_write`. -/
def sendFileEvents (addr : Nat) (data : List Nat) : List Event :=
  (sendFileWrites addr data).flatMap (fun c => writeChunkEvents c.1 c.2.1 c.2.2)

/-- The `for l in range(loops)` loop of `Samba.receiveFile`.  Each iteration
writes an `R` command advertising `MAX_PAYLOAD` at `offset`, then calls
`self._port.read(length)` — requesting the TOTAL `length`, exactly as the
source does.  Triples are (command address, advertised chunk length,
transport read request size). -/
def receiveFileLoop (length : Nat) : Nat → Nat → List (Nat × Nat × Nat)
  | 0, _ => []
  | l + 1, offset =>
      (offset, MAX_PAYLOAD, length) :: receiveFileLoop length l (offset + MAX_PAYLOAD)

/-- `Samba.receiveFile`: the sequence of (command address, advertised
length, read request size) operations, in order.  After the full chunks, a
final `bytesRemaining` chunk is both advertised and read as
`bytesRemaining` when non-zero. -/
def receiveFileOps (addr length : Nat) : List (Nat × Nat × Nat) :=
  let loops := length / MAX_PAYLOAD
  let bytesRemaining := length % MAX_PAYLOAD
  receiveFileLoop length loops addr ++
    (if bytesRemaining ≠ 0 then
       [(addr + loops * MAX_PAYLOAD, bytesRemaining, bytesRemaining)]
     else [])

/-- Spec-side description of the chunk commands for a transfer of `L` bytes
starting at `addr`: `L / MAX_PAYLOAD` full chunks spaced `MAX_PAYLOAD`
apart, then the remainder chunk when non-zero. -/
def rangeCmds : Nat → Nat → List (Nat × Nat)
  | _, 0 => []
  | a, n + 1 => (a, MAX_PAYLOAD) :: rangeCmds (a + MAX_PAYLOAD) n

/-- Spec-side closed form of both bulk paths' (address, advertised length)
command sequences. -/
def specChunkCmds (addr L : Nat) : List (Nat × Nat) :=
  rangeCmds addr (L / MAX_PAYLOAD) ++
    (if L % MAX_PAYLOAD ≠ 0 then
       [(addr + L / MAX_PAYLOAD * MAX_PAYLOAD, L % MAX_PAYLOAD)]
     else [])

/-- Consecutive chunks chain: every following chunk starts where the
previous one (address plus advertised length) ended. -/
def chainedB : List (Nat × Nat) → Bool
  | [] => true
  | [_] => true
  | (a, n) :: (b, m) :: rest => (b == a + n) && chainedB ((b, m) :: rest)

/-- First chunk address of a command list, if any. -/
def headAddr : List (Nat × Nat) → Option Nat
  | [] => none
  | (b, _) :: _ => some b

/-- An event trace made of well-separated bulk-write chunks: repeatedly a
command-text write, a flush, a binary payload write, and a flush — so
command text and payload never share one transport write. -/
def wellFormedChunks : List Event → Bool
  | [] => true
  | Event.writeStr _ :: Event.flush :: Event.writeData _ :: Event.flush :: rest =>
      wellFormedChunks rest
  | _ => false

/-- The `(code, description)` pair of the chip-info lookup tables
(`Info` namedtuple in `samba.py`). -/
structure Info where
  name : String
  description : String
deriving DecidableEq

/-- Result of a `dict.get(key, "*** Unknown ***")` style lookup: either the
table entry or the sentinel default. -/
inductive Resolved
  | found (i : Info)
  | unknown (sentinel : String)
deriving DecidableEq

/-- `table.get(key, dflt)` for the `Info`-valued tables (all with distinct
keys). -/
def dictGet (table : List (Nat × Info)) (key : Nat) (dflt : String) : Resolved :=
  match table.find? (fun p => p.1 == key) with
  | some p => Resolved.found p.2
  | none => Resolved.unknown dflt

/-- `FriendlyNames` dict literal from `chipInfo`, entries in source order.
The literal repeats keys; Python keeps the LAST value for a repeated key. -/
def FriendlyNames : List (Nat × String) :=
  [(0xAB0B0AE0, "ATSAM4LC8C"), (0xAB0A09E0, "ATSAM4LC4C"), (0xAB0A07E0, "ATSAM4LC2C"),
   (0xAB0B0AE0, "ATSAM4LC8B"), (0xAB0A09E0, "ATSAM4LC4B"), (0xAB0A07E0, "ATSAM4LC2B"),
   (0xAB0B0AE0, "ATSAM4LC8A"), (0xAB0A09E0, "ATSAM4LC4A"), (0xAB0A07E0, "ATSAM4LC2A"),
   (0xAB0B0AE0, "ATSAM4LS8C"), (0xAB0A09E0, "ATSAM4LS4C"), (0xAB0A07E0, "ATSAM4LS2C"),
   (0xAB0B0AE0, "ATSAM4LS8B"), (0xAB0A09E0, "ATSAM4LS4B"), (0xAB0A07E0, "ATSAM4LS2B"),
   (0xAB0B0AE0, "ATSAM4LS8A"), (0xAB0A09E0, "ATSAM4LS4A"), (0xAB0A07E0, "ATSAM4LS2A")]

/-- `FriendlyNames.get(chipId, "*** Unknown ***")` with Python dict-literal
semantics: the last entry for a repeated key wins. -/
def friendlyNameOf (chipId : Nat) : String :=
  match FriendlyNames.reverse.find? (fun p => p.1 == chipId) with
  | some p => p.2
  | none => "*** Unknown ***"

/-- `NvpTypes` table. -/
def NvpTypes : List (Nat × Info) :=
  [(0, ⟨"ROM", "ROM"⟩),
   (1, ⟨"ROMLESS", "ROMless or on-chip Flash"⟩),
   (4, ⟨"SRAM", "SRAM emulating ROM"⟩),
   (2, ⟨"FLASH", "Embedded Flash Memory"⟩),
   (3, ⟨"ROM_FLASH", "ROM and Embedded Flash Memory"⟩)]

/-- `Archs` table. -/
def Archs : List (Nat × Info) :=
  [(0x19, ⟨"AT91SAM9xx", "AT91SAM9xx Series"⟩),
   (0x29, ⟨"AT91SAM9XExx", "AT91SAM9XExx Series"⟩),
   (0x34, ⟨"AT91x34", "AT91x34 Series"⟩),
   (0x37, ⟨"CAP7", "CAP7 Series"⟩),
   (0x39, ⟨"CAP9", "CAP9 Series"⟩),
   (0x3B, ⟨"CAP11", "CAP11 Series"⟩),
   (0x40, ⟨"AT91x40", "AT91x40 Series"⟩),
   (0x42, ⟨"AT91x42", "AT91x42 Series"⟩),
   (0x55, ⟨"AT91x55", "AT91x55 Series"⟩),
   (0x60, ⟨"AT91SAM7Axx", "AT91SAM7Axx Series"⟩),
   (0x61, ⟨"AT91SAM7AQxx", "AT91SAM7AQxx Series"⟩),
   (0x63, ⟨"AT91x63", "AT91x63 Series"⟩),
   (0x70, ⟨"AT91SAM7Sxx", "AT91SAM7Sxx Series"⟩),
   (0x71, ⟨"AT91SAM7XCxx", "AT91SAM7XCxx Series"⟩),
   (0x72, ⟨"AT91SAM7SExx", "AT91SAM7SExx Series"⟩),
   (0x73, ⟨"AT91SAM7Lxx", "AT91SAM7Lxx Series"⟩),
   (0x75, ⟨"AT91SAM7Xxx", "AT91SAM7Xxx Series"⟩),
   (0x76, ⟨"AT91SAM7SLxx", "AT91SAM7SLxx Series"⟩),
   (0x80, ⟨"SAM3UxC", "SAM3UxC Series (100-pin version)"⟩),
   (0x81, ⟨"SAM3UxE", "SAM3UxE Series (144-pin version)"⟩),
   (0x83, ⟨"SAM3AxC/SAM4AxC", "SAM3AxC/SAM4AxC Series (100-pin version)"⟩),
   (0x84, ⟨"SAM3XxC/SAM4XxC", "SAM3XxC/SAM4XxC Series (100-pin version)"⟩),
   (0x85, ⟨"SAM3XxE/SAM4XxE", "SAM3XxE/SAM4XxE Series (144-pin version)"⟩),
   (0x86, ⟨"SAM3XxG/SAM4XxG", "SAM3XxG/SAM4XxG Series (208/217-pin version)"⟩),
   (0x88, ⟨"SAM3SxA/SAM4SxA", "SAM3SxA/SAM4SxA Series (48-pin version)"⟩),
   (0x89, ⟨"SAM3SxB/SAM4SxB", "SAM3SxB/SAM4SxB Series (64-pin version)"⟩),
   (0x8A, ⟨"SAM3SxC/SAM4SxC", "SAM3SxC/SAM4SxC Series (100-pin version)"⟩),
   (0x92, ⟨"AT91x92", "AT91x92 Series"⟩),
   (0x93, ⟨"SAM3NxA", "SAM3NxA Series (48-pin version)"⟩),
   (0x94, ⟨"SAM3NxB", "SAM3NxB Series (64-pin version)"⟩),
   (0x95, ⟨"SAM3NxC", "SAM3NxC Series (100-pin version)"⟩),
   (0x99, ⟨"SAM3SDxB", "SAM3SDxB Series (64-pin version)"⟩),
   (0x9A, ⟨"SAM3SDxC", "SAM3SDxC Series (100-pin version)"⟩),
   (0xA5, ⟨"SAM5A", "SAM5A"⟩),
   (0xB0, ⟨"SAM4L", "SAM4Lxx Series"⟩),
   (0xF0, ⟨"AT75Cxx", "AT75Cxx Series"⟩)]

/-- `SRamSizes` table. -/
def SRamSizes : List (Nat × Info) :=
  [(0, ⟨"48K", "48K bytes"⟩), (1, ⟨"1K", "1K bytes"⟩), (2, ⟨"2K", "2K bytes"⟩),
   (3, ⟨"6K", "6K bytes"⟩), (4, ⟨"24K", "24K bytes"⟩), (5, ⟨"4K", "4K bytes"⟩),
   (6, ⟨"80K", "80K bytes"⟩), (7, ⟨"160K", "160K bytes"⟩), (8, ⟨"8K", "8K bytes"⟩),
   (9, ⟨"16K", "16K bytes"⟩), (10, ⟨"32K", "32K bytes"⟩), (11, ⟨"64K", "64K bytes"⟩),
   (12, ⟨"128K", "128K bytes"⟩), (13, ⟨"256K", "256K bytes"⟩), (14, ⟨"96K", "96K bytes"⟩),
   (15, ⟨"512K", "512K bytes"⟩)]

/-- `NvpSiz2s` table (note the source's "56K bytes" description for 256K). -/
def NvpSiz2s : List (Nat × Info) :=
  [(0, ⟨"None", "None"⟩), (1, ⟨"8K", "8K bytes"⟩), (2, ⟨"16K", "16K bytes"⟩),
   (3, ⟨"32K", "32K bytes"⟩), (4, ⟨"Reserved", "Reserved"⟩), (5, ⟨"64K", "64K bytes"⟩),
   (6, ⟨"Reserved", "Reserved"⟩), (7, ⟨"128K", "128K bytes"⟩), (8, ⟨"Reserved", "Reserved"⟩),
   (9, ⟨"256K", "56K bytes"⟩), (10, ⟨"512K", "512K bytes"⟩), (11, ⟨"Reserved", "Reserved"⟩),
   (12, ⟨"1024K", "1024K bytes"⟩), (13, ⟨"Reserved", "Reserved"⟩),
   (14, ⟨"2048K", "2048K bytes"⟩), (15, ⟨"Reserved", "Reserved"⟩)]

/-- `EProcs` table. -/
def EProcs : List (Nat × Info) :=
  [(1, ⟨"ARM946ES", "ARM946ES"⟩), (2, ⟨"ARM7TDMI", "ARM7TDMI"⟩), (3, ⟨"CM3", "Cortex-M3"⟩),
   (4, ⟨"ARM920T", "ARM920T"⟩), (5, ⟨"ARM926EJS", "ARM926EJS"⟩), (6, ⟨"CA5", "Cortex-A5"⟩),
   (7, ⟨"CM4", "Cortex-M4"⟩)]

/-- `NvpSizes` table. -/
def NvpSizes : List (Nat × Info) :=
  [(0, ⟨"NONE", "None"⟩), (1, ⟨"8K", "8K bytes"⟩), (2, ⟨"16K", "16K bytes"⟩),
   (3, ⟨"32K", "32K bytes"⟩), (4, ⟨"Reserved", "Reserved"⟩), (5, ⟨"64K", "64K bytes"⟩),
   (6, ⟨"Reserved", "Reserved"⟩), (7, ⟨"128K", "128K bytes"⟩), (8, ⟨"Reserved", "Reserved"⟩),
   (9, ⟨"256K", "256K bytes"⟩), (10, ⟨"512K", "512K bytes"⟩), (11, ⟨"Reserved", "Reserved"⟩),
   (12, ⟨"1024K", "1024K bytes"⟩), (13, ⟨"Reserved", "Reserved"⟩),
   (14, ⟨"2048K", "2048K bytes"⟩), (15, ⟨"Reserved", "Reserved"⟩)]

/-- `Packages` table (the source really says "100-pi" for code 4). -/
def Packages : List (Nat × String) :=
  [(0, "24-pin"), (1, "32-pin"), (2, "48-pin"), (3, "64-pin"), (4, "100-pi"),
   (5, "144-pin")]

/-- Key fed to `Packages.get`: an integer in the extended branch, the string
`"*** Unknown ***"` otherwise (a string key never hits the int-keyed dict). -/
inductive PKey
  | num (n : Nat)
  | str (s : String)
deriving DecidableEq

/-- `Packages.get(key, dflt)`. -/
def packagesGet (key : PKey) (dflt : String) : String :=
  match key with
  | PKey.num n =>
      match Packages.find? (fun p => p.1 == n) with
      | some p => p.2
      | none => dflt
  | PKey.str _ => dflt

/-- Bitfield masks local to `chipInfo` (the silicon-version mask is named
`VERSION` in the source; renamed here to avoid clashing with the opcode). -/
def EXT : Nat := 0x80000000
def NVPTYP : Nat := 0x70000000
def ARCH : Nat := 0x0ff00000
def SRAMSIZ : Nat := 0x000f0000
def NVPSIZ2 : Nat := 0x0000f000
def NVPSIZ : Nat := 0x00000f00
def EPROC : Nat := 0x000000e0
def VERSION_MASK : Nat := 0x0000001f
def PACKAGE : Nat := 0x07000000
def LCD : Nat := 0x00000008
def USBFULL : Nat := 0x00000004
def USB : Nat := 0x00000002
def AES : Nat := 0x00000001

/-- The `DeviceCapabilities` namedtuple, fields in source order. -/
structure DeviceCapabilities where
  friendlyName : String
  nvpType : Resolved
  architecture : Resolved
  sramSize : Resolved
  nvpSize0 : Resolved
  nvpSize1 : Resolved
  processor : Resolved
  version : Nat
  ext : Bool
  package : String
  lcd : Bool
  usb : Bool
  usbfull : Bool
  aes : Bool
deriving DecidableEq

/-- The `if ext: ... else: ...` block of `chipInfo`.  Returns the package
key and the lcd/usbfull/usb/aes flags in the source's assignment order, plus
a flag recording whether `self.exId()` (the second register read) ran. -/
def extFields (ext : Bool) (exid : Nat) : PKey × Bool × Bool × Bool × Bool × Bool :=
  if ext then
    (PKey.num ((exid &&& PACKAGE) >>> 24),
     (exid &&& LCD) == LCD,
     (exid &&& USBFULL) == USBFULL,
     (exid &&& USB) == USB,
     (exid &&& AES) == AES,
     true)
  else
    (PKey.str "*** Unknown ***", false, false, false, false, false)

/-- `Samba.chipInfo`, decoding a Chip-ID register value.  `exIdReg` is the
value the extended-ID register would deliver if read; the Bool result
records whether that second read was performed. -/
def chipInfo (chipId exIdReg : Nat) : DeviceCapabilities × Bool :=
  let ext := (chipId &&& EXT) == EXT
  let nvptyp := (chipId &&& NVPTYP) >>> 28
  let arch := (chipId &&& ARCH) >>> 20
  let sramsiz := (chipId &&& SRAMSIZ) >>> 16
  let nvpsiz2 := (chipId &&& NVPSIZ2) >>> 12
  let nvpsiz := (chipId &&& NVPSIZ) >>> 8
  let eproc := (chipId &&& EPROC) >>> 5
  let version := chipId &&& VERSION_MASK
  match extFields ext exIdReg with
  | (package, lcd, usbfull, usb, aes, exRead) =>
    ({ friendlyName := friendlyNameOf chipId
       nvpType := dictGet NvpTypes nvptyp "*** Unknown ***"
       architecture := dictGet Archs arch "*** Unknown ***"
       sramSize := dictGet SRamSizes sramsiz "*** Unknown ***"
       nvpSize0 := dictGet NvpSizes nvpsiz "*** Unknown ***"
       nvpSize1 := dictGet NvpSiz2s nvpsiz2 "*** Unknown ***"
       processor := dictGet EProcs eproc "*** Unknown ***"
       version := version
       ext := ext
       package := packagesGet package "*** Reserved ***"
       lcd := lcd
       usb := usb
       usbfull := usbfull
       aes := aes }, exRead)


lemma and_mask_mod (v m k : Nat) (hm : m = 2 ^ k - 1) :
    v &&& m = v % 2 ^ k &&& m := by
  subst hm
  rw [Nat.and_pow_two_sub_one_eq_mod, Nat.and_pow_two_sub_one_eq_mod,
    Nat.mod_mod_of_dvd v dvd_rfl]

lemma sendFileLoop_cmds (data : List Nat) :
    ∀ n a o, (sendFileLoop data n a o).map (fun c => (c.1, c.2.1)) = rangeCmds a n := by
  intro n
  induction n with
  | zero => intro a o; rfl
  | succ m ih => intro a o; simp [sendFileLoop, rangeCmds, ih]

lemma receiveFileLoop_cmds (L : Nat) :
    ∀ n a, (receiveFileLoop L n a).map (fun c => (c.1, c.2.1)) = rangeCmds a n := by
  intro n
  induction n with
  | zero => intro a; rfl
  | succ m ih => intro a; simp [receiveFileLoop, rangeCmds, ih]

lemma sendFileWrites_cmds (addr : Nat) (data : List Nat) :
    (sendFileWrites addr data).map (fun c => (c.1, c.2.1)) =
      specChunkCmds addr data.length := by
  unfold sendFileWrites specChunkCmds
  by_cases h : data.length % MAX_PAYLOAD = 0 <;>
    simp [h, List.map_append, sendFileLoop_cmds]

lemma receiveFileOps_cmds (addr L : Nat) :
    (receiveFileOps addr L).map (fun c => (c.1, c.2.1)) = specChunkCmds addr L := by
  unfold receiveFileOps specChunkCmds
  by_cases h : L % MAX_PAYLOAD = 0 <;>
    simp [h, List.map_append, receiveFileLoop_cmds]

lemma rangeCmds_length : ∀ n a, (rangeCmds a n).length = n := by
  intro n
  induction n with
  | zero => intro a; rfl
  | succ m ih => intro a; simp [rangeCmds, ih]

lemma specChunkCmds_length (addr L : Nat) :
    (specChunkCmds addr L).length = (L + MAX_PAYLOAD - 1) / MAX_PAYLOAD := by
  have h4 : (MAX_PAYLOAD : Nat) = 4000 := rfl
  unfold specChunkCmds
  by_cases h : L % MAX_PAYLOAD = 0
  · rw [if_neg (by simp [h]), List.append_nil, rangeCmds_length]
    rw [h4] at h ⊢
    omega
  · rw [if_pos h, List.length_append, rangeCmds_length, List.length_singleton]
    rw [h4] at h ⊢
    omega

lemma rangeCmds_getLast (n : Nat) :
    ∀ a, (rangeCmds a (n + 1)).getLast? = some (a + n * MAX_PAYLOAD, MAX_PAYLOAD) := by
  induction n with
  | zero => intro a; simp [rangeCmds]
  | succ m ih =>
      intro a
      have h : rangeCmds a (m + 1 + 1) =
          (a, MAX_PAYLOAD) :: rangeCmds (a + MAX_PAYLOAD) (m + 1) := rfl
      have h2 : rangeCmds (a + MAX_PAYLOAD) (m + 1) =
          (a + MAX_PAYLOAD, MAX_PAYLOAD) :: rangeCmds (a + MAX_PAYLOAD + MAX_PAYLOAD) m := rfl
      rw [h, h2, List.getLast?_cons_cons, ← h2, ih]
      congr 2
      ring

lemma specChunkCmds_getLast (addr L : Nat) :
    Option.all
      (fun c => c.2 == (if L % MAX_PAYLOAD = 0 then MAX_PAYLOAD else L % MAX_PAYLOAD))
      (specChunkCmds addr L).getLast? = true := by
  unfold specChunkCmds
  by_cases h : L % MAX_PAYLOAD = 0
  · simp only [h, ne_eq, not_true_eq_false, if_neg, ite_false, List.append_nil, if_pos]
    cases hn : L / MAX_PAYLOAD with
    | zero => simp [rangeCmds]
    | succ m => simp [rangeCmds_getLast]
  · simp [h, List.getLast?_concat]

lemma chainedB_cons (a n : Nat) (l : List (Nat × Nat)) :
    chainedB ((a, n) :: l) = ((headAddr l).all (fun b => b == a + n) && chainedB l) := by
  cases l with
  | nil => rfl
  | cons p rest =>
      obtain ⟨b, m⟩ := p
      rfl

lemma chainedB_rangeCmds_append :
    ∀ n a rest, (rest = [] ∨ ∃ r, rest = [(a + n * MAX_PAYLOAD, r)]) →
      chainedB (rangeCmds a n ++ rest) = true := by
  intro n
  induction n with
  | zero =>
      intro a rest h
      rcases h with h | ⟨r, h⟩ <;> subst h <;> rfl
  | succ m ih =>
      intro a rest h
      have hr : rangeCmds a (m + 1) ++ rest =
          (a, MAX_PAYLOAD) :: (rangeCmds (a + MAX_PAYLOAD) m ++ rest) := rfl
      have hcond : rest = [] ∨ ∃ r, rest = [(a + MAX_PAYLOAD + m * MAX_PAYLOAD, r)] := by
        rcases h with h | ⟨r, h⟩
        · exact Or.inl h
        · have ha : a + (m + 1) * MAX_PAYLOAD = a + MAX_PAYLOAD + m * MAX_PAYLOAD := by
            ring
          exact Or.inr ⟨r, by rw [h, ha]⟩
      have htail := ih (a + MAX_PAYLOAD) rest hcond
      rw [hr, chainedB_cons, htail]
      cases m with
      | zero =>
          rcases hcond with hc | ⟨r, hc⟩ <;> subst hc <;> simp [rangeCmds, headAddr]
      | succ k => simp [rangeCmds, headAddr]

lemma chainedB_specChunkCmds (addr L : Nat) :
    chainedB (specChunkCmds addr L) = true := by
  unfold specChunkCmds
  by_cases h : L % MAX_PAYLOAD = 0
  · simp only [h, ne_eq, not_true_eq_false, ite_false, List.append_nil]
    simpa using chainedB_rangeCmds_append (L / MAX_PAYLOAD) addr [] (Or.inl rfl)
  · simp only [h, ne_eq, not_false_eq_true, ite_true]
    exact chainedB_rangeCmds_append (L / MAX_PAYLOAD) addr _ (Or.inr ⟨_, rfl⟩)


lemma wellFormed_chunkTraces (l : List (Nat × Nat × List Nat)) :
    wellFormedChunks (l.flatMap (fun c => writeChunkEvents c.1 c.2.1 c.2.2)) = true ∧
    (l.flatMap (fun c => writeChunkEvents c.1 c.2.1 c.2.2)).length = 4 * l.length := by
  induction l with
  | nil => exact ⟨rfl, rfl⟩
  | cons c rest ih =>
      obtain ⟨hw, hl⟩ := ih
      constructor
      · simpa [List.flatMap_cons, writeChunkEvents, wellFormedChunks] using hw
      · have h4 : (writeChunkEvents c.1 c.2.1 c.2.2).length = 4 := rfl
        rw [List.flatMap_cons, List.length_append, hl, h4, List.length_cons]
        ring

/-- C3: for every length L both bulk paths emit exactly
ceil(L / MAX_PAYLOAD) chunk commands with identical (address, advertised
length) sequences, the final chunk advertises L mod MAX_PAYLOAD (or
MAX_PAYLOAD for a non-zero exact multiple), each chunk address is the
previous address plus the previous advertised length, and a zero-length
transfer emits no chunk command on either path. -/
theorem chunk_policy (addr L : Nat) (data : List Nat) :
    (sendFileWrites addr data).map (fun c => (c.1, c.2.1)) =
        (receiveFileOps addr data.length).map (fun c => (c.1, c.2.1)) ∧
    (sendFileWrites addr data).length =
        (data.length + MAX_PAYLOAD - 1) / MAX_PAYLOAD ∧
    (receiveFileOps addr L).length = (L + MAX_PAYLOAD - 1) / MAX_PAYLOAD ∧
    Option.all
      (fun c => c.2 == (if data.length % MAX_PAYLOAD = 0 then MAX_PAYLOAD
        else data.length % MAX_PAYLOAD))
      ((sendFileWrites addr data).map (fun c => (c.1, c.2.1))).getLast? = true ∧
    Option.all
      (fun c => c.2 == (if L % MAX_PAYLOAD = 0 then MAX_PAYLOAD else L % MAX_PAYLOAD))
      ((receiveFileOps addr L).map (fun c => (c.1, c.2.1))).getLast? = true ∧
    chainedB ((sendFileWrites addr data).map (fun c => (c.1, c.2.1))) = true ∧
    chainedB ((receiveFileOps addr L).map (fun c => (c.1, c.2.1))) = true ∧
    sendFileWrites addr [] = [] ∧
    receiveFileOps addr 0 = [] := by
  have hs := sendFileWrites_cmds addr data
  have hrd := receiveFileOps_cmds addr data.length
  have hrL := receiveFileOps_cmds addr L
  refine ⟨?_, ?_, ?_, ?_, ?_, ?_, ?_, ?_, ?_⟩
  · rw [hs, hrd]
  · have h2 := congrArg List.length hs
    rw [List.length_map] at h2
    rw [h2, specChunkCmds_length]
  · have h3 := congrArg List.length hrL
    rw [List.length_map] at h3
    rw [h3, specChunkCmds_length]
  · rw [hs]
    exact specChunkCmds_getLast addr data.length
  · rw [hrL]
    exact specChunkCmds_getLast addr L
  · rw [hs]
    exact chainedB_specChunkCmds addr data.length
  · rw [hrL]
    exact chainedB_specChunkCmds addr L
  · rfl
  · rfl

/-- C9: every bulk-write chunk is sent as a command-text write, a flush, a
separate binary payload write, and a flush, in that order; the whole
sendFile trace consists of exactly these four-event groups, so command text
and payload never share one transport write. -/
theorem bulk_write_separation (addr : Nat) (data : List Nat) :
    wellFormedChunks (sendFileEvents addr data) = true ∧
    (sendFileEvents addr data).length = 4 * (sendFileWrites addr data).length := by
  unfold sendFileEvents
  exact wellFormed_chunkTraces (sendFileWrites addr data)

/-- C10: the internal error branches of _readUnit (a None struct format) and
_writeUnit (a missing MASKS key) are unreachable exactly when the unit size
is 1, 2 or 4, and are reached for every other unit size. -/
theorem unit_size_precondition (u : Nat) :
    ((structFmtOf u).isSome ↔ u = 1 ∨ u = 2 ∨ u = 4) ∧
    ((MASKS u).isSome ↔ u = 1 ∨ u = 2 ∨ u = 4) := by
  unfold structFmtOf MASKS
  constructor <;> split_ifs <;> simp_all

/-- C1 (code bug): receiveFile(0, MAX_PAYLOAD + 1) advertises a 4000-byte
chunk but then requests a transport read of 4001 bytes (the TOTAL length),
so the read request sizes do not all equal the advertised chunk lengths as
the claim states; only the final partial chunk reads its advertised size. -/
theorem receiveFile_read_request_bug :
    receiveFileOps 0 4001 = [(0, MAX_PAYLOAD, 4001), (MAX_PAYLOAD, 1, 1)] ∧
    (receiveFileOps 0 4001).map (fun c => c.2.2) ≠
      (receiveFileOps 0 4001).map (fun c => c.2.1) := by
  exact ⟨by decide, by decide⟩

/-- C2 (code bug): when the transport delivers only 2 of 4 requested bytes
before the timeout, Port.read returns the short bytearray instead of
raising TimeoutError (the source only raises on a zero-length read), and
_readUnit then fails with struct.error rather than ProtocolTimeout. -/
theorem port_read_partial_bug :
    portRead [0x01, 0x02] 4 = Except.ok [0x01, 0x02] ∧
    portRead [0x01, 0x02] 4 ≠ Except.error "TimeoutError" ∧
    readUnitResult true [0x01, 0x02] 4 = Except.error "struct.error" := by
  refine ⟨rfl, by simp [portRead], rfl⟩

/-- C5 (code bug): the half-word read unpacks with the native-order struct
format "H" (unlike the explicitly little-endian format "<L" used for words), so on
a big-endian host the reply bytes 0x01 0x02 decode to 0x0102 instead of the
little-endian value 0x0201 the protocol prescribes. -/
theorem readUnit_halfword_native_order :
    readUnitResult false [0x01, 0x02] 2 = Except.ok 0x0102 ∧
    readUnitResult true [0x01, 0x02] 2 = Except.ok 0x0201 ∧
    leVal [0x01, 0x02] = 0x0201 ∧ (0x0102 : Nat) ≠ 0x0201 :=
  ⟨rfl, rfl, rfl, by decide⟩

/-- C6 counterexample: version() returns None — the Python body is a single
writeCmd call with no return statement and no transport read — refuting the
claim that it returns the raw ASCII string obtained from the next read. -/
theorem version_returns_none :
    version.2 = none ∧ version.1 = [Event.writeStr "V#\n"] :=
  ⟨rfl, rfl⟩

/-- C6 amended: version() sends the version-query opcode frame "V#\n" with
no arguments and returns nothing; it performs no transport read — the
caller issues the next read with the expected reply length. -/
theorem version_sends_only :
    version = ([Event.writeStr "V#\n"], none) ∧
    version.1.filter isReadReq = [] :=
  ⟨rfl, rfl⟩

/-- C7: when bit 31 of the Chip-ID is clear chipInfo performs no second
register read and reports all extended fields absent or false (the package
falls through both lookups to the "*** Reserved ***" sentinel); when bit 31
is set and the extended-ID register reads 0, the package is the lowest
package code "24-pin" and LCD/USB/USB-full/AES are all false. -/
theorem chipInfo_ext_gate (chipId exid : Nat) :
    (chipId &&& EXT ≠ EXT →
       (chipInfo chipId exid).2 = false ∧
       (chipInfo chipId exid).1.package = "*** Reserved ***" ∧
       (chipInfo chipId exid).1.lcd = false ∧
       (chipInfo chipId exid).1.usb = false ∧
       (chipInfo chipId exid).1.usbfull = false ∧
       (chipInfo chipId exid).1.aes = false) ∧
    (chipId &&& EXT = EXT → exid = 0 →
       (chipInfo chipId exid).2 = true ∧
       (chipInfo chipId exid).1.package = "24-pin" ∧
       (chipInfo chipId exid).1.lcd = false ∧
       (chipInfo chipId exid).1.usb = false ∧
       (chipInfo chipId exid).1.usbfull = false ∧
       (chipInfo chipId exid).1.aes = false) := by
  constructor
  · intro h
    have hb : ((chipId &&& EXT) == EXT) = false := by
      simpa using h
    simp [chipInfo, extFields, hb, packagesGet]
  · intro h he
    subst he
    have hb : ((chipId &&& EXT) == EXT) = true := by
      simpa using h
    simp [chipInfo, extFields, hb, packagesGet, Packages, PACKAGE, LCD, USB, USBFULL, AES]

/-- Witness for C7: chip id 0 takes the no-extended branch and chip id
0x80000000 with extended register 0 yields the lowest package code. -/
theorem chipInfo_ext_gate_witness :
    (chipInfo 0 0).2 = false ∧ (chipInfo 0x80000000 0).1.package = "24-pin" :=
  ⟨((chipInfo_ext_gate 0 0).1 (by decide)).1,
   ((chipInfo_ext_gate 0x80000000 0).2 (by decide) rfl).2.1⟩

/-- C8 counterexample: the extended-info flag (bit 31) of Chip-ID
0xAB0B0AE0 is SET, so chipInfo does perform the second (extended-ID)
register read, contrary to the claim that none is attempted. -/
theorem chipInfo_AB0B0AE0_ext_set :
    0xAB0B0AE0 &&& EXT = EXT ∧ (chipInfo 0xAB0B0AE0 0).2 = true :=
  ⟨by decide, rfl⟩

/-- C8 amended: given Chip-ID register value 0xAB0B0AE0 (whose extended
flag bit is set), chipInfo resolves NVM type, architecture and the size
fields through the lookup tables and performs the second register read. -/
theorem chipInfo_AB0B0AE0_resolves (exid : Nat) :
    (chipInfo 0xAB0B0AE0 exid).1.nvpType =
        Resolved.found ⟨"FLASH", "Embedded Flash Memory"⟩ ∧
    (chipInfo 0xAB0B0AE0 exid).1.architecture =
        Resolved.found ⟨"SAM4L", "SAM4Lxx Series"⟩ ∧
    (chipInfo 0xAB0B0AE0 exid).1.sramSize = Resolved.found ⟨"64K", "64K bytes"⟩ ∧
    (chipInfo 0xAB0B0AE0 exid).1.nvpSize0 = Resolved.found ⟨"512K", "512K bytes"⟩ ∧
    (chipInfo 0xAB0B0AE0 exid).1.nvpSize1 = Resolved.found ⟨"None", "None"⟩ ∧
    (chipInfo 0xAB0B0AE0 exid).1.processor = Resolved.found ⟨"CM4", "Cortex-M4"⟩ ∧
    (chipInfo 0xAB0B0AE0 exid).2 = true :=
  ⟨rfl, rfl, rfl, rfl, rfl, rfl, rfl⟩

/-- C4: writeUnit masks the value to the unit width before encoding (so the
frame for v equals the frame for v mod 2^(8u)), and the word-size frame for
address 0 and value 0xDEADBEEF is exactly "W00000000,DEADBEEF#\n". -/
theorem writeUnit_mask_and_frame (u v : Nat) (hu : u = 1 ∨ u = 2 ∨ u = 4)
    (cmd : String) (addr : Nat) :
    writeUnitFrame cmd addr v u = writeUnitFrame cmd addr (v % 2 ^ (8 * u)) u ∧
    writeUnitFrame "W" 0 0xDEADBEEF 4 = some "W00000000,DEADBEEF#\n" := by
  refine ⟨?_, rfl⟩
  rcases hu with h | h | h
  · subst h
    unfold writeUnitFrame MASKS
    norm_num
    rw [and_mask_mod v 0x000000ff 8 (by norm_num)]
    norm_num
  · subst h
    unfold writeUnitFrame MASKS
    norm_num
    rw [and_mask_mod v 0x0000ffff 16 (by norm_num)]
    norm_num
  · subst h
    unfold writeUnitFrame MASKS
    norm_num
    rw [and_mask_mod v 0xffffffff 32 (by norm_num)]
    norm_num

/-- Witness for C4 at unit size 1 and value 0x1FF (truncated to 0xFF). -/
theorem writeUnit_mask_and_frame_witness :
    writeUnitFrame "O" 16 0x1FF 1 = writeUnitFrame "O" 16 (0x1FF % 2 ^ (8 * 1)) 1 ∧
    writeUnitFrame "W" 0 0xDEADBEEF 4 = some "W00000000,DEADBEEF#\n" :=
  writeUnit_mask_and_frame 1 0x1FF (Or.inl rfl) "O" 16

end Atenka
